import Mathlib

/-!
Shallow embedding of the Admin dashboard view (`src/src/pages/Admin.tsx`).

The view's data model (profiles and infraction reports), its derived values
(`filteredUsers`, `stats`, the block-action render condition) and its event
handlers (`loadData`, `handleBlockUser`, `handleResolveInfraction`,
`checkAdminAccess`) are translated here as pure functions.  Effects are made
explicit: remote query/update outcomes become parameters, toast notifications
accumulate in a list, and navigation becomes a list of visited routes.
-/

/-- Role of a platform user, `user_type` in the source. -/
inductive UserType
  | client
  | artist
  | admin
deriving DecidableEq, Repr

/-- Activity status of a profile. -/
inductive UserStatus
  | active
  | inactive
deriving DecidableEq, Repr

/-- Lifecycle status of an infraction report. -/
inductive InfractionStatus
  | pending
  | resolved
deriving DecidableEq, Repr

/-- A user profile row as selected by the Data Loader.  The display name is
optional (the source guards it with optional chaining and a placeholder). -/
structure User where
  id : String
  email : String
  full_name : Option String
  user_type : UserType
  status : UserStatus
  created_at : String
deriving DecidableEq, Repr

/-- Denormalized display fields of a joined profile (reporter / reported user). -/
structure JoinedUser where
  full_name : String
  email : String
deriving DecidableEq, Repr

/-- An infraction report row, with the two optional joined profiles. -/
structure Infraction where
  id : String
  user_id : String
  reported_user_id : String
  description : String
  detailed_description : Option String
  status : InfractionStatus
  created_at : String
  reported_user : Option JoinedUser
  reporter : Option JoinedUser
deriving DecidableEq, Repr

/-- A transient notification, `toast.success` / `toast.error` in the source. -/
inductive Toast
  | success (msg : String)
  | error (msg : String)
deriving DecidableEq, Repr

/-- The component's local state: the `useState` hooks of `Admin`, plus the
list of toasts emitted so far (made explicit to reason about notifications). -/
structure AdminState where
  users : List User
  infractions : List Infraction
  loading : Bool
  searchTerm : String
  selectedInfraction : Option Infraction
  isInfractionModalOpen : Bool
  toasts : List Toast
deriving DecidableEq, Repr

/-- Characters of a string lowered character-wise, the view of
`s.toLowerCase()` used by the search filter. -/
def lowerChars (s : String) : List Char := s.data.map Char.toLower

/-- Case-insensitive substring test: `s.toLowerCase().includes(q.toLowerCase())`. -/
def includesCI (s q : String) : Bool := decide (lowerChars q <:+: lowerChars s)

/-- The derived `filteredUsers` value: keep users whose (optional) full name
or email contains the search term case-insensitively.  A missing full name
makes the first disjunct false, exactly as optional chaining does. -/
def filteredUsers (users : List User) (searchTerm : String) : List User :=
  users.filter fun user =>
    (match user.full_name with
      | some name => includesCI name searchTerm
      | none => false)
    || includesCI user.email searchTerm

/-- The `loadData` effect.  `usersRes` and `infractionsRes` are the outcomes
of the two read queries; `Except.ok none` models a null `data` payload, which
the source replaces with `[]` via `data || []`.  The users query runs first
and its result is stored before the infractions query is issued; either
failure jumps to the shared catch block, and the finally block always clears
the loading flag. -/
def loadData (s : AdminState)
    (usersRes : Except Unit (Option (List User)))
    (infractionsRes : Except Unit (Option (List Infraction))) : AdminState :=
  match usersRes with
  | Except.error _ =>
      { s with toasts := s.toasts ++ [Toast.error "Error al cargar los datos"],
               loading := false }
  | Except.ok usersData =>
      let s1 := { s with users := usersData.getD [] }
      match infractionsRes with
      | Except.error _ =>
          { s1 with toasts := s1.toasts ++ [Toast.error "Error al cargar los datos"],
                    loading := false }
      | Except.ok infractionsData =>
          { s1 with infractions := infractionsData.getD [], loading := false }

/-- The `handleBlockUser` handler.  `remoteError` is the outcome of the
single-row update; on failure the catch block only emits an error toast, on
success the matching entry's status is patched locally and a success toast
is emitted. -/
def handleBlockUser (s : AdminState) (userId : String) (remoteError : Bool) :
    AdminState :=
  if remoteError then
    { s with toasts := s.toasts ++ [Toast.error "Error al bloquear el usuario"] }
  else
    { s with
      users := s.users.map fun user =>
        if user.id = userId then { user with status := UserStatus.inactive } else user,
      toasts := s.toasts ++ [Toast.success "Usuario bloqueado exitosamente"] }

/-- The `handleResolveInfraction` handler.  On remote success the matching
infraction's status is patched to resolved, the detail modal is closed and a
success toast is emitted; on failure only an error toast is emitted. -/
def handleResolveInfraction (s : AdminState) (infractionId : String)
    (remoteError : Bool) : AdminState :=
  if remoteError then
    { s with toasts := s.toasts ++ [Toast.error "Error al resolver la infracción"] }
  else
    { s with
      infractions := s.infractions.map fun infraction =>
        if infraction.id = infractionId
          then { infraction with status := InfractionStatus.resolved }
          else infraction,
      isInfractionModalOpen := false,
      toasts := s.toasts ++ [Toast.success "Infracción resuelta exitosamente"] }

/-- The derived `stats` record, recomputed from the in-memory lists. -/
structure Stats where
  totalUsers : Nat
  activeUsers : Nat
  pendingInfractions : Nat
  resolvedInfractions : Nat
deriving DecidableEq, Repr

/-- The `stats` derivation: four counts over the two loaded lists. -/
def stats (users : List User) (infractions : List Infraction) : Stats :=
  { totalUsers := users.length
    activeUsers := (users.filter fun u => decide (u.status = UserStatus.active)).length
    pendingInfractions :=
      (infractions.filter fun i => decide (i.status = InfractionStatus.pending)).length
    resolvedInfractions :=
      (infractions.filter fun i => decide (i.status = InfractionStatus.resolved)).length }

/-- The render condition guarding the block action in the user table:
`user.status === 'active' && user.user_type !== 'admin'`. -/
def showsBlockAction (user : User) : Bool :=
  decide (user.status = UserStatus.active) && decide (user.user_type ≠ UserType.admin)

/-- The access-denied message shown by the guard. -/
def accessDeniedMessage : String :=
  "Acceso denegado. Solo los administradores pueden acceder a esta página."

/-- The `checkAdminAccess` guard.  `sessionUser` is the current session's user
id (absent when not logged in); `profileOf` is the profile-store lookup of a
user's role.  Returns the routes navigated to and the toasts emitted. -/
def checkAdminAccess (sessionUser : Option String)
    (profileOf : String → Option UserType) : List String × List Toast :=
  match sessionUser with
  | none => (["/auth"], [])
  | some uid =>
    match profileOf uid with
    | none => (["/"], [Toast.error accessDeniedMessage])
    | some t =>
      if t = UserType.admin then ([], [])
      else (["/"], [Toast.error accessDeniedMessage])

/-- A sample user for concrete witnesses. -/
def demoUser : User :=
  { id := "1", email := "Ana@Example.com", full_name := some "Ana López",
    user_type := UserType.client, status := UserStatus.active, created_at := "2024-01-01" }

/-- A second sample user, an admin, for concrete witnesses. -/
def demoAdmin : User :=
  { id := "2", email := "root@example.com", full_name := none,
    user_type := UserType.admin, status := UserStatus.active, created_at := "2024-01-02" }

/-- A sample infraction for concrete witnesses. -/
def demoInfraction : Infraction :=
  { id := "a", user_id := "1", reported_user_id := "2", description := "spam",
    detailed_description := none, status := InfractionStatus.pending,
    created_at := "2024-02-01", reported_user := none, reporter := none }

/-- A sample initial state for concrete witnesses. -/
def demoState : AdminState :=
  { users := [demoUser, demoAdmin], infractions := [demoInfraction],
    loading := false, searchTerm := "", selectedInfraction := none,
    isInfractionModalOpen := true, toasts := [] }

/-- Helper: the pending and resolved filters partition the infraction list. -/
theorem pending_length_add_resolved_length (infractions : List Infraction) :
    (infractions.filter fun i => decide (i.status = InfractionStatus.pending)).length +
      (infractions.filter fun i => decide (i.status = InfractionStatus.resolved)).length
      = infractions.length := by
  induction infractions with
  | nil => rfl
  | cons i rest ih =>
    cases h : i.status <;> simp [List.filter_cons, h] <;> omega

/-- C1: for every loaded profile list and every search query, membership in
`filteredUsers` is exactly membership in the loaded list together with
case-insensitive substring containment of the query in the display name or in
the email, and the empty query returns the full loaded list. -/
theorem c1_search_filter (users : List User) (q : String) :
    (∀ u, u ∈ filteredUsers users q ↔
      u ∈ users ∧
        ((∃ name, u.full_name = some name ∧ lowerChars q <:+: lowerChars name) ∨
          lowerChars q <:+: lowerChars u.email)) ∧
    filteredUsers users "" = users := by
  constructor
  · intro u
    simp only [filteredUsers, List.mem_filter, Bool.or_eq_true, includesCI,
      decide_eq_true_eq]
    cases h : u.full_name with
    | none => simp [h]
    | some name => simp [h]
  · apply List.filter_eq_self.mpr
    intro u _
    have h : lowerChars "" = [] := rfl
    simp [includesCI, h]

/-- C2: when the block action on `userId` succeeds remotely, the success toast
is emitted, the infractions list is untouched, the users list keeps its
length, and pointwise the entry whose id matches gets status inactive with
every other field kept, while every other entry is unchanged. -/
theorem c2_block_success_frame (s : AdminState) (userId : String) :
    (handleBlockUser s userId false).toasts
        = s.toasts ++ [Toast.success "Usuario bloqueado exitosamente"] ∧
    (handleBlockUser s userId false).infractions = s.infractions ∧
    (handleBlockUser s userId false).users.length = s.users.length ∧
    ∀ i : Nat, ∀ hi : i < s.users.length,
      ∀ hi2 : i < (handleBlockUser s userId false).users.length,
      (handleBlockUser s userId false).users.get ⟨i, hi2⟩ =
        (if (s.users.get ⟨i, hi⟩).id = userId
          then { s.users.get ⟨i, hi⟩ with status := UserStatus.inactive }
          else s.users.get ⟨i, hi⟩) := by
  refine ⟨rfl, rfl, ?_, ?_⟩
  · simp [handleBlockUser]
  · intro i hi hi2
    simp [handleBlockUser, List.get_eq_getElem, List.getElem_map]

/-- C2 witness: blocking user "1" in the demo state inactivates exactly the
first entry and keeps the admin entry unchanged. -/
theorem c2_block_success_frame_witness :
    (handleBlockUser demoState "1" false).users.get ⟨0, by decide⟩ =
      { demoUser with status := UserStatus.inactive } ∧
    (handleBlockUser demoState "1" false).users.get ⟨1, by decide⟩ = demoAdmin := by
  constructor
  · have h := (c2_block_success_frame demoState "1").2.2.2 0 (by decide) (by decide)
    rw [h]; decide
  · have h := (c2_block_success_frame demoState "1").2.2.2 1 (by decide) (by decide)
    rw [h]; decide

/-- C3: when the resolve action on `infractionId` succeeds remotely, the
success toast "Infracción resuelta exitosamente" is emitted, the modal is
closed, the users list is untouched, the infractions list keeps its length,
and pointwise the entry whose id matches gets status resolved with every
other field kept, while every other entry is unchanged. -/
theorem c3_resolve_success_frame (s : AdminState) (infractionId : String) :
    (handleResolveInfraction s infractionId false).toasts
        = s.toasts ++ [Toast.success "Infracción resuelta exitosamente"] ∧
    (handleResolveInfraction s infractionId false).isInfractionModalOpen = false ∧
    (handleResolveInfraction s infractionId false).users = s.users ∧
    (handleResolveInfraction s infractionId false).infractions.length
        = s.infractions.length ∧
    ∀ i : Nat, ∀ hi : i < s.infractions.length,
      ∀ hi2 : i < (handleResolveInfraction s infractionId false).infractions.length,
      (handleResolveInfraction s infractionId false).infractions.get ⟨i, hi2⟩ =
        (if (s.infractions.get ⟨i, hi⟩).id = infractionId
          then { s.infractions.get ⟨i, hi⟩ with status := InfractionStatus.resolved }
          else s.infractions.get ⟨i, hi⟩) := by
  refine ⟨rfl, rfl, rfl, ?_, ?_⟩
  · simp [handleResolveInfraction]
  · intro i hi hi2
    simp [handleResolveInfraction, List.get_eq_getElem, List.getElem_map]

/-- C3 witness: resolving infraction "a" in the demo state marks the single
entry resolved, closes the modal and emits the success toast. -/
theorem c3_resolve_success_frame_witness :
    (handleResolveInfraction demoState "a" false).infractions.get ⟨0, by decide⟩ =
      { demoInfraction with status := InfractionStatus.resolved } ∧
    (handleResolveInfraction demoState "a" false).isInfractionModalOpen = false := by
  constructor
  · have h := (c3_resolve_success_frame demoState "a").2.2.2.2 0 (by decide) (by decide)
    rw [h]; decide
  · exact (c3_resolve_success_frame demoState "a").2.1

/-- C4: the derived stats satisfy activeUsers ≤ totalUsers, and the pending
and resolved counts sum to the number of loaded infractions. -/
theorem c4_stats_invariants (users : List User) (infractions : List Infraction) :
    (stats users infractions).activeUsers ≤ (stats users infractions).totalUsers ∧
    (stats users infractions).pendingInfractions
        + (stats users infractions).resolvedInfractions = infractions.length := by
  exact ⟨List.length_filter_le _ _, pending_length_add_resolved_length infractions⟩

/-- C5 counterexample: starting from the demo state, a successful users query
followed by a failing infractions query leaves the users list replaced by the
fetched data, not in its prior state — a read failure after which a local
list was modified, refuting the claim as stated. -/
theorem c5_read_failure_counterexample :
    (loadData demoState (Except.ok (some [demoUser])) (Except.error ())).users
      ≠ demoState.users := by decide

/-- C5 amended: if the users query fails, neither list is modified; if the
users query succeeds and the infractions query fails, the infractions list is
left in its prior state but the users list has already been replaced with the
fetched users data. -/
theorem c5_read_failure_amended (s : AdminState)
    (usersRes : Except Unit (Option (List User)))
    (infractionsRes : Except Unit (Option (List Infraction))) :
    (usersRes = Except.error () →
      (loadData s usersRes infractionsRes).users = s.users ∧
      (loadData s usersRes infractionsRes).infractions = s.infractions) ∧
    (∀ usersData, usersRes = Except.ok usersData →
      infractionsRes = Except.error () →
      (loadData s usersRes infractionsRes).infractions = s.infractions ∧
      (loadData s usersRes infractionsRes).users = usersData.getD []) := by
  constructor
  · rintro rfl; exact ⟨rfl, rfl⟩
  · rintro usersData rfl rfl; exact ⟨rfl, rfl⟩

/-- C5 amended witness: a failing users query leaves the users list in place;
a successful users query with a failing infractions query leaves the
infractions list in place. -/
theorem c5_read_failure_amended_witness :
    (loadData demoState (Except.error ()) (Except.error ())).users
        = demoState.users ∧
    (loadData demoState (Except.ok (some [demoUser])) (Except.error ())).infractions
        = demoState.infractions :=
  ⟨((c5_read_failure_amended demoState (Except.error ()) (Except.error ())).1 rfl).1,
    ((c5_read_failure_amended demoState (Except.ok (some [demoUser]))
      (Except.error ())).2 (some [demoUser]) rfl rfl).1⟩

/-- C6: for every outcome of the Data Loader the loading flag ends cleared,
and whenever either read query rejects the "Error al cargar los datos" toast
is among the emitted notifications. -/
theorem c6_loading_cleared_error_toast (s : AdminState)
    (usersRes : Except Unit (Option (List User)))
    (infractionsRes : Except Unit (Option (List Infraction))) :
    (loadData s usersRes infractionsRes).loading = false ∧
    ((usersRes = Except.error () ∨ infractionsRes = Except.error ()) →
      Toast.error "Error al cargar los datos"
        ∈ (loadData s usersRes infractionsRes).toasts) := by
  cases usersRes with
  | error e => exact ⟨rfl, fun _ => by simp [loadData]⟩
  | ok d =>
    cases infractionsRes with
    | error e => exact ⟨rfl, fun _ => by simp [loadData]⟩
    | ok d2 =>
      refine ⟨rfl, ?_⟩
      rintro (h | h) <;> exact Except.noConfusion h

/-- C6 witness: a failing users query clears the loading flag and shows the
load-error toast. -/
theorem c6_loading_cleared_error_toast_witness :
    (loadData demoState (Except.error ())
        (Except.ok (some [demoInfraction]))).loading = false ∧
    Toast.error "Error al cargar los datos"
      ∈ (loadData demoState (Except.error ())
          (Except.ok (some [demoInfraction]))).toasts := by
  have h := c6_loading_cleared_error_toast demoState (Except.error ())
    (Except.ok (some [demoInfraction]))
  exact ⟨h.1, h.2 (Or.inl rfl)⟩

/-- C7: when the remote update of either write action fails, both local lists
are unchanged, the corresponding error toast is emitted, and the modal flag
is unchanged (so a resolve failure keeps the modal open). -/
theorem c7_write_failure_frame (s : AdminState) (userId infractionId : String) :
    ((handleBlockUser s userId true).users = s.users ∧
      (handleBlockUser s userId true).infractions = s.infractions ∧
      (handleBlockUser s userId true).isInfractionModalOpen
          = s.isInfractionModalOpen ∧
      (handleBlockUser s userId true).toasts
          = s.toasts ++ [Toast.error "Error al bloquear el usuario"]) ∧
    ((handleResolveInfraction s infractionId true).users = s.users ∧
      (handleResolveInfraction s infractionId true).infractions = s.infractions ∧
      (handleResolveInfraction s infractionId true).isInfractionModalOpen
          = s.isInfractionModalOpen ∧
      (handleResolveInfraction s infractionId true).toasts
          = s.toasts ++ [Toast.error "Error al resolver la infracción"]) :=
  ⟨⟨rfl, rfl, rfl, rfl⟩, ⟨rfl, rfl, rfl, rfl⟩⟩

/-- C8: the block action is rendered exactly when the user's status is active
and the role is not admin; in particular never for an admin account. -/
theorem c8_block_action_condition (user : User) :
    (showsBlockAction user = true ↔
      user.status = UserStatus.active ∧ user.user_type ≠ UserType.admin) ∧
    (user.user_type = UserType.admin → showsBlockAction user = false) := by
  constructor
  · simp [showsBlockAction]
  · intro h
    simp [showsBlockAction, h]

/-- C8 witness: the demo admin never shows the block action. -/
theorem c8_block_action_condition_witness :
    demoAdmin.user_type = UserType.admin ∧ showsBlockAction demoAdmin = false :=
  ⟨rfl, (c8_block_action_condition demoAdmin).2 rfl⟩

/-- C9: with no session user the guard navigates to "/auth"; with a session
user whose profile is absent or whose role is not admin it emits the
access-denied toast and navigates to "/"; with an admin role it neither
notifies nor navigates. -/
theorem c9_guard_outcomes (sessionUser : Option String)
    (profileOf : String → Option UserType) :
    (sessionUser = none →
      checkAdminAccess sessionUser profileOf = (["/auth"], [])) ∧
    (∀ uid, sessionUser = some uid → profileOf uid = none →
      checkAdminAccess sessionUser profileOf
        = (["/"], [Toast.error accessDeniedMessage])) ∧
    (∀ uid t, sessionUser = some uid → profileOf uid = some t →
      t ≠ UserType.admin →
      checkAdminAccess sessionUser profileOf
        = (["/"], [Toast.error accessDeniedMessage])) ∧
    (∀ uid, sessionUser = some uid → profileOf uid = some UserType.admin →
      checkAdminAccess sessionUser profileOf = ([], [])) := by
  refine ⟨?_, ?_, ?_, ?_⟩
  · rintro rfl; rfl
  · rintro uid rfl h; simp [checkAdminAccess, h]
  · rintro uid t rfl h ht; simp [checkAdminAccess, h, ht]
  · rintro uid rfl h; simp [checkAdminAccess, h]

/-- C9 witness: the three guard outcomes at concrete inputs. -/
theorem c9_guard_outcomes_witness :
    checkAdminAccess none (fun _ => some UserType.admin) = (["/auth"], []) ∧
    checkAdminAccess (some "1") (fun _ => some UserType.client)
        = (["/"], [Toast.error accessDeniedMessage]) ∧
    checkAdminAccess (some "2") (fun _ => some UserType.admin) = ([], []) := by
  refine ⟨?_, ?_, ?_⟩
  · exact (c9_guard_outcomes none (fun _ => some UserType.admin)).1 rfl
  · exact (c9_guard_outcomes (some "1") (fun _ => some UserType.client)).2.2.1
      "1" UserType.client rfl rfl (by decide)
  · exact (c9_guard_outcomes (some "2") (fun _ => some UserType.admin)).2.2.2
      "2" rfl rfl

/-- C10: when the block action is invoked with an id matching no loaded user
and the remote update succeeds, the users list is returned unchanged yet the
success toast "Usuario bloqueado exitosamente" is still emitted. -/
theorem c10_block_unknown_id (s : AdminState) (userId : String)
    (h : ∀ u ∈ s.users, u.id ≠ userId) :
    (handleBlockUser s userId false).users = s.users ∧
    (handleBlockUser s userId false).toasts
        = s.toasts ++ [Toast.success "Usuario bloqueado exitosamente"] := by
  refine ⟨?_, rfl⟩
  have hmap : (handleBlockUser s userId false).users
      = s.users.map (fun user =>
          if user.id = userId then { user with status := UserStatus.inactive }
          else user) := rfl
  rw [hmap]
  have hfix : ∀ u ∈ s.users,
      (if u.id = userId then { u with status := UserStatus.inactive } else u)
        = (id u : User) := by
    intro u hu
    simp [h u hu]
  rw [List.map_congr_left hfix, List.map_id]

/-- C10 witness: blocking an id absent from the demo state leaves the users
list unchanged and still emits the success toast. -/
theorem c10_block_unknown_id_witness :
    (handleBlockUser demoState "zzz" false).users = demoState.users ∧
    (handleBlockUser demoState "zzz" false).toasts
        = demoState.toasts ++ [Toast.success "Usuario bloqueado exitosamente"] :=
  c10_block_unknown_id demoState "zzz" (by decide)
